import Mathlib

/-!
Shallow embedding of `gen_gpg_mail.py` (ACandian/GenGPGMail): a script that
assembles a PGP/MIME mail (plaintext container, optional detached-signature
wrapper, encrypted wrapper) and resolves its configuration from built-in
defaults, a JSON config file, and CLI options.

External collaborators (the GnuPG gateway, the filesystem, stdin, the
mimetypes guesser) are modelled as per-invocation inputs gathered in
environment records: the gateway is called at most once for signing and once
for encryption per invocation, so its two responses are plain fields.
Transfer encodings (quoted-printable, base64, ...) are stdlib bijections on
payload bytes; we record which encoding a leaf declares and keep the payload
in its unencoded form.  Printing to stderr plus `sys.exit(n)` is modelled as
an `Except` error carrying the exit code and the printed message; an uncaught
Python `KeyError` (which also aborts the process) is a separate error
constructor.
-/

namespace GenGPGMail

/-- A MIME content-transfer-encoding as selected by the `email.encoders`
functions used in the source: `encode_quopri`, `encode_base64`,
`encode_noop` (no transformation), `encode_7or8bit`. -/
inductive Cte where
  | quopri
  | base64
  | noop
  | sevenOrEightBit
  deriving DecidableEq, Repr

/-- A MIME header: name, value, and parameters (e.g.
`Content-Disposition: attachment; filename=...` from
`add_header('Content-Disposition', "attachment", filename=path.name)`). -/
structure Hdr where
  name : String
  value : String
  params : List (String × String)
  deriving DecidableEq, Repr

/-- A MIME part: either a leaf (`MIMEBase`/`MIMEApplication` with a payload)
or a multipart container (`MIMEMultipart` with an ordered child list).
`ctParams` are the Content-Type parameters (charset, name, protocol,
micalg). -/
inductive MimePart where
  | leaf (maintype : String) (subtype : String) (ctParams : List (String × String))
      (enc : Cte) (headers : List Hdr) (payload : String)
  | multipart (subtype : String) (ctParams : List (String × String))
      (headers : List Hdr) (children : List MimePart)

/-- The ordered children of a part (a leaf has none). -/
def MimePart.children : MimePart → List MimePart
  | .leaf _ _ _ _ _ _ => []
  | .multipart _ _ _ cs => cs

/-- The Content-Type parameters of a part. -/
def MimePart.ctParamsOf : MimePart → List (String × String)
  | .leaf _ _ ps _ _ _ => ps
  | .multipart _ ps _ _ => ps

/-- The payload of a leaf part (a container has none). -/
def MimePart.payloadOf : MimePart → Option String
  | .leaf _ _ _ _ _ p => some p
  | .multipart _ _ _ _ => none

/-- The payload of the first child of a container: the body leaf of the
plaintext container built in step 1. -/
def bodyOf (m : MimePart) : Option String :=
  match m.children with
  | c :: _ => c.payloadOf
  | [] => none

/-- A configuration value as found in `_DEFAULT_PARAMS`, the JSON config
file, or the CLI layer: Python `None`, a string, a boolean, or a list of
attachment path strings. -/
inductive PValue where
  | vnone
  | vstr (s : String)
  | vbool (b : Bool)
  | vlist (l : List String)
  deriving DecidableEq, Repr

/-- Python truthiness of a configuration value (`if params['signer']:`). -/
def PValue.truthy : PValue → Bool
  | .vnone => false
  | .vstr s => !(s == "")
  | .vbool b => b
  | .vlist l => !l.isEmpty

/-- Extract a string value, with a default for the ill-typed case. -/
def PValue.getStr : PValue → String → String
  | .vstr s, _ => s
  | _, d => d

/-- Extract a list value (`params['attachments']`). -/
def PValue.getList : PValue → List String
  | .vlist l => l
  | _ => []

/-- First-of-two option combinator: the semantics of a later `dict` entry
overwriting an earlier one. -/
def ofirst (x y : Option PValue) : Option PValue :=
  match x with
  | some v => some v
  | none => y

/-- Lookup in an association list with Python-`dict` semantics for
`dict(chain(a.items(), b.items()))` modelled as `a ++ b`: the LAST binding
of a key wins. -/
def dlookup : List (String × PValue) → String → Option PValue
  | [], _ => none
  | p :: rest, key => ofirst (dlookup rest key) (if p.1 == key then some p.2 else none)

/-- `params[k]` on a dict that is expected to bind `k` (the merged dict
always contains every default key); `vnone` for a missing key. -/
def pget (d : List (String × PValue)) (k : String) : PValue :=
  (dlookup d k).getD PValue.vnone

/-- The module-level `_DEFAULT_PARAMS` table of `gen_gpg_mail.py`. -/
def _DEFAULT_PARAMS : List (String × PValue) :=
  [("recipient", PValue.vnone),
   ("message", PValue.vstr "--"),
   ("subject", PValue.vstr "No subject"),
   ("attachments", PValue.vlist []),
   ("trust", PValue.vbool false),
   ("gpgenv", PValue.vstr "./gpgenv"),
   ("signer", PValue.vnone),
   ("sign_password", PValue.vnone)]

/-- An attachment file as the script observes it through the filesystem and
`mimetypes.guess_type`: its base name (`path.name`), the guessed
`(maintype, subtype)` split of the mime type (`None` when the guess fails),
and the bytes read from disk. -/
structure AttachFile where
  name : String
  guessedType : Option (String × String)
  content : String
  deriving Repr

/-- One loop iteration of `_build_mail_to_encrypt` (lines 58-75): guess a
type with `application/octet-stream` fallback (the failed guess also prints
a non-fatal diagnostic, not modelled), base64-encode the file bytes, and add
`Content-Disposition: attachment; filename=<path.name>`. -/
def build_attachment (f : AttachFile) : MimePart :=
  let t := f.guessedType.getD ("application", "octet-stream")
  MimePart.leaf t.1 t.2 [] Cte.base64
    [⟨"Content-Disposition", "attachment", [("filename", f.name)]⟩]
    f.content

/-- `if message == '--': message = sys.stdin.read()` — whether assembly
reads standard input. -/
def reads_stdin (message : String) : Bool :=
  message == "--"

/-- `_build_mail_to_encrypt` (lines 38-77): a `MIMEMultipart()` (default
subtype `mixed`) holding one `text/plain; charset=UTF-8` quoted-printable
leaf with the resolved body, then one attachment leaf per file in input
order.  `stdin` is the content of standard input, read only when the
message equals the `--` sentinel. -/
def build_mail_to_encrypt (message : String) (stdin : String)
    (files : List AttachFile) : MimePart :=
  let msg := if reads_stdin message then stdin else message
  let message_mail : MimePart :=
    MimePart.leaf "text" "plain" [("charset", "UTF-8")] Cte.quopri [] msg
  MimePart.multipart "mixed" [] [] (message_mail :: files.map build_attachment)

/-- The gateway's response to `gpg.sign(...)`: the `hash_algo` identifier
string and `str(signature)`, the detached-signature bytes. -/
structure SignResult where
  hash_algo : String
  data : String
  deriving Repr

/-- The gateway's response to `gpg.encrypt(...)`: `ok` flag, `status`
diagnostic, and `str(encrypted_mail)`, the ciphertext bytes. -/
structure EncryptResult where
  ok : Bool
  status : String
  data : String
  deriving Repr

/-- The external world of one `encrypt_mail` invocation: standard input,
the filesystem/mimetypes view of each attachment path, and the two gateway
responses (sign is invoked at most once, encrypt exactly once). -/
structure Env where
  stdin : String
  fileOf : String → AttachFile
  signRes : SignResult
  encryptRes : EncryptResult

/-- A fatal outcome: `exitWith code msg` models printing `msg` to stderr
followed by `sys.exit(code)`; `keyError k` models an uncaught Python
`KeyError` on key `k` (traceback reported, process aborts). -/
inductive MailError where
  | keyError (key : String)
  | exitWith (code : Nat) (msg : String)
  deriving DecidableEq, Repr

/-- The `hash_mapping` dict lookup of lines 108-115, as the partial map it
is: `hash_mapping[h]` succeeds exactly on the seven tabulated keys and
raises `KeyError` otherwise. -/
def hash_mapping (h : String) : Option String :=
  if h == "1" then some "md5"
  else if h == "2" then some "sha1"
  else if h == "3" then some "ripemd160"
  else if h == "8" then some "sha256"
  else if h == "9" then some "sha384"
  else if h == "10" then some "sha512"
  else if h == "11" then some "sha224"
  else none

/-- Step 1 of `encrypt_mail` (line 99): build the plaintext container from
the resolved message, stdin and the attachment list. -/
def step1_node (env : Env) (params : List (String × PValue)) : MimePart :=
  build_mail_to_encrypt ((pget params "message").getStr "") env.stdin
    (((pget params "attachments").getList).map env.fileOf)

/-- Lines 101-127 of `encrypt_mail`: the node handed to `gpg.encrypt`.
When `params['signer']` is truthy, sign and wrap in a
`MIMEMultipart('signed', micalg='pgp-...', protocol='application/pgp-signature')`
whose children are the step-1 container and a
`MIMEApplication(str(signature), 'pgp-signature', encode_noop, name='signature.asc')`
leaf; an unmapped `hash_algo` raises `KeyError` while building the micalg
parameter.  Otherwise the step-1 container is carried forward unwrapped. -/
def node_to_encrypt (env : Env) (params : List (String × PValue)) :
    Except MailError MimePart :=
  let mail0 := step1_node env params
  if (pget params "signer").truthy then
    match hash_mapping env.signRes.hash_algo with
    | some name =>
        Except.ok (MimePart.multipart "signed"
          [("micalg", "pgp-" ++ name), ("protocol", "application/pgp-signature")] []
          [mail0,
           MimePart.leaf "application" "pgp-signature" [("name", "signature.asc")]
             Cte.noop [] env.signRes.data])
    | none => Except.error (MailError.keyError env.signRes.hash_algo)
  else
    Except.ok mail0

/-- `encrypt_mail` (lines 80-150).  Merges the defaults under the caller's
parameters (`dict(chain(_DEFAULT_PARAMS.items(), in_params.items()))`),
builds and optionally signs the container, encrypts it, and on a not-ok
result prints the status and exits with code 2 (lines 131-133); on success
returns the `multipart/encrypted` container with the `Subject` header, the
`Version: 1` control leaf (`encode_7or8bit`) and the
`application/octet-stream` ciphertext leaf named `encrypted.asc`. -/
def encrypt_mail (env : Env) (in_params : List (String × PValue)) :
    Except MailError MimePart :=
  let params := _DEFAULT_PARAMS ++ in_params
  match node_to_encrypt env params with
  | Except.error e => Except.error e
  | Except.ok _ =>
    let encrypted_mail := env.encryptRes
    if encrypted_mail.ok = false then
      Except.error (MailError.exitWith 2 encrypted_mail.status)
    else
      Except.ok (MimePart.multipart "encrypted"
        [("protocol", "application/pgp-encrypted")]
        [⟨"Subject", (pget params "subject").getStr "", []⟩]
        [MimePart.leaf "application" "pgp-encrypted" [] Cte.sevenOrEightBit []
           "Version: 1",
         MimePart.leaf "application" "octet-stream" [("name", "encrypted.asc")]
           Cte.sevenOrEightBit [] encrypted_mail.data])

/-- The `optparse` option values handed to `_encrypt_mail`: every
destination defaults to `None` (no `default=` is set on any option), so
`none` means the flag was not passed on the command line. -/
structure Options where
  pass_file : Option String
  sign_password : Option String
  config : Option String
  recipient : Option String
  subject : Option String
  message : Option String
  files : Option (List String)
  gpgenv : Option String
  trust : Option Bool
  signer : Option String

/-- Python truthiness of an optional string option
(`if options.pass_file:`): present and non-empty. -/
def optTruthy : Option String → Bool
  | some s => !(s == "")
  | none => false

/-- Strip all trailing newline characters: Python `s.rstrip('\n')`. -/
def rstripNL (s : String) : String :=
  String.mk (List.reverse (List.dropWhile (fun c => c == '\n') (List.reverse s.toList)))

/-- The CLI-layer filesystem view used by `_encrypt_mail`: whether a
passphrase-file path `is_file()`, the raw `readline()` result of that file
(first line, trailing newline included when present), and the parsed JSON
object of a config-file path. -/
structure CliEnv where
  passFileIsFile : String → Bool
  passFileFirstLine : String → String
  configOf : String → List (String × PValue)

/-- Lines 164-175 of `_encrypt_mail`: resolve the signing passphrase.  A
truthy `--password-file` path wins: if the file exists the passphrase is its
first line with trailing newlines stripped, and a missing file is fatal with
exit status 3; otherwise a truthy `--password` value is used; otherwise the
passphrase stays `None`.  This runs unconditionally, before signing is even
known to be requested. -/
def resolve_sign_password (cenv : CliEnv) (o : Options) :
    Except MailError (Option String) :=
  if optTruthy o.pass_file then
    let pf := o.pass_file.getD ""
    if cenv.passFileIsFile pf then
      Except.ok (some (rstripNL (cenv.passFileFirstLine pf)))
    else
      Except.error (MailError.exitWith 3
        ("Can\x27t read the \x27" ++ pf ++ "\x27 file."))
  else if optTruthy o.sign_password then
    Except.ok o.sign_password
  else
    Except.ok none

/-- One entry of the CLI config dict comprehension: kept only when the
value is not `None` (`if v is not None`). -/
def centry (k : String) : Option PValue → List (String × PValue)
  | some v => [(k, v)]
  | none => []

/-- Lines 182-189: the CLI-supplied configuration dict, holding exactly the
keys whose option value is not `None` (`sign_password` is the value already
resolved from the passphrase file or `--password`). -/
def cli_config (o : Options) (sign_password : Option String) :
    List (String × PValue) :=
  centry "recipient" (o.recipient.map PValue.vstr) ++
  centry "subject" (o.subject.map PValue.vstr) ++
  centry "message" (o.message.map PValue.vstr) ++
  centry "attachments" (o.files.map PValue.vlist) ++
  centry "gpgenv" (o.gpgenv.map PValue.vstr) ++
  centry "trust" (o.trust.map PValue.vbool) ++
  centry "signer" (o.signer.map PValue.vstr) ++
  centry "sign_password" (sign_password.map PValue.vstr)

/-- Lines 177-180: the parsed JSON config when a config path is truthy,
else the empty dict. -/
def file_config (cenv : CliEnv) (o : Options) : List (String × PValue) :=
  if optTruthy o.config then cenv.configOf (o.config.getD "") else []

/-- `_encrypt_mail` (lines 153-193): resolve the passphrase (eagerly), load
the file config when a config path is truthy, merge file config under CLI
config (`dict(chain(file_config.items(), cli_config.items()))` modelled as
append with last-binding-wins lookup), and call `encrypt_mail`. -/
def _encrypt_mail (cenv : CliEnv) (env : Env) (o : Options) :
    Except MailError MimePart :=
  match resolve_sign_password cenv o with
  | Except.error e => Except.error e
  | Except.ok sign_password =>
    let config := file_config cenv o ++ cli_config o sign_password
    encrypt_mail env config

/-- The fully merged parameter dict a run of `_encrypt_mail` effectively
resolves against: line 191's `file config under CLI config` merge, with the
built-in defaults prepended by `encrypt_mail` itself at line 95. -/
def merged_params (cenv : CliEnv) (o : Options) (sp : Option String) :
    List (String × PValue) :=
  _DEFAULT_PARAMS ++ (file_config cenv o ++ cli_config o sp)

/-! ### Helper lemmas on dict lookup -/

@[simp]
theorem ofirst_some (v : PValue) (y : Option PValue) :
    ofirst (some v) y = some v := rfl

@[simp]
theorem ofirst_none (y : Option PValue) : ofirst none y = y := rfl

@[simp]
theorem ofirst_none_right (x : Option PValue) : ofirst x none = x := by
  cases x <;> rfl

theorem dlookup_append (a b : List (String × PValue)) (k : String) :
    dlookup (a ++ b) k = ofirst (dlookup b k) (dlookup a k) := by
  induction a with
  | nil =>
      simp only [List.nil_append, dlookup]
      cases dlookup b k <;> rfl
  | cons p rest ih =>
      simp only [List.cons_append, dlookup, List.append_eq, ih]
      cases dlookup b k <;> cases dlookup rest k <;> rfl

theorem dlookup_centry (k k' : String) (v : Option PValue) :
    dlookup (centry k' v) k = if k' == k then v else none := by
  cases v with
  | none => simp [centry, dlookup]
  | some w => simp only [centry, dlookup, ofirst]

/-- The seven entries of the `hash_mapping` dict as a pair list, for
membership statements. -/
def hash_table : List (String × String) :=
  [("1", "md5"), ("2", "sha1"), ("3", "ripemd160"), ("8", "sha256"),
   ("9", "sha384"), ("10", "sha512"), ("11", "sha224")]

theorem hash_mapping_mem (h name : String) (hm : hash_mapping h = some name) :
    (h, name) ∈ hash_table := by
  unfold hash_mapping at hm
  split_ifs at hm with h1 h2 h3 h4 h5 h6 h7 <;> simp_all [hash_table]

theorem hash_mapping_none_not_mem (h : String) (hm : hash_mapping h = none) :
    h ∉ ["1", "2", "3", "8", "9", "10", "11"] := by
  intro hmem
  fin_cases hmem <;> simp [hash_mapping] at hm

/-! ### Concrete data for witnesses -/

/-- A sample attachment. -/
def sampleFile : AttachFile := ⟨"a.txt", some ("text", "plain"), "filedata"⟩

/-- Environment whose gateway reports success (hash id 8). -/
def sampleEnvOk : Env :=
  ⟨"stdin text", fun _ => sampleFile, ⟨"8", "SIGDATA"⟩, ⟨true, "OK", "CIPHER"⟩⟩

/-- Environment whose encrypt operation fails. -/
def sampleEnvFail : Env :=
  ⟨"stdin text", fun _ => sampleFile, ⟨"8", "SIGDATA"⟩, ⟨false, "BAD PASSPHRASE", "X"⟩⟩

/-- Environment whose sign result carries the unmapped hash id 4. -/
def sampleEnvBadHash : Env :=
  ⟨"stdin text", fun _ => sampleFile, ⟨"4", "SIGDATA"⟩, ⟨true, "OK", "CIPHER"⟩⟩

/-- Caller parameters with a configured signer. -/
def paramsSigned : List (String × PValue) :=
  [("recipient", PValue.vstr "keyX"), ("message", PValue.vstr "hello"),
   ("signer", PValue.vstr "keyS")]

/-- Caller parameters of the spec's end-to-end example: recipient `keyX`,
message `hello`, no attachments, trust on, no signer, no subject. -/
def paramsE2E : List (String × PValue) :=
  [("recipient", PValue.vstr "keyX"), ("message", PValue.vstr "hello"),
   ("trust", PValue.vbool true)]

/-- CLI filesystem whose config file sets a subject and trust, with no
passphrase file present. -/
def cenvFile : CliEnv :=
  ⟨fun _ => false, fun _ => "",
   fun _ => [("subject", PValue.vstr "From file"), ("trust", PValue.vbool true)]⟩

/-- Options passing only a recipient and a config path. -/
def oCfgOnly : Options :=
  ⟨none, none, some "conf.json", some "keyX", none, none, none, none, none, none⟩

/-- CLI filesystem where every path is a readable file whose first line is
`secret` followed by a newline. -/
def cenvPassOk : CliEnv :=
  ⟨fun _ => true, fun _ => "secret\n", fun _ => []⟩

/-- CLI filesystem where no path is a file. -/
def cenvPassMissing : CliEnv :=
  ⟨fun _ => false, fun _ => "", fun _ => []⟩

/-- Options with both a passphrase file and an explicit `--password`, with
signing requested. -/
def oPass : Options :=
  ⟨some "pass.txt", some "cli-password", none, some "keyX", none, none, none,
   none, none, some "keyS"⟩

/-- Options with a designated passphrase file but NO signer configured. -/
def oNoSign : Options :=
  ⟨some "missing.txt", none, none, some "keyX", none, some "hello", none,
   none, none, none⟩

/-- The eight parameter keys `encrypt_mail` recognizes (the keys of
`_DEFAULT_PARAMS`). -/
def KNOWN_KEYS : List String :=
  ["recipient", "message", "subject", "attachments", "trust", "gpgenv",
   "signer", "sign_password"]

/-- Caller parameters carrying unrecognized `smtp_*` extras. -/
def paramsExtra : List (String × PValue) :=
  [("recipient", PValue.vstr "keyX"), ("message", PValue.vstr "hello"),
   ("smtp_server", PValue.vstr "mail.example.org"),
   ("smtp_port", PValue.vstr "587")]

/-- The same caller parameters without the extras. -/
def paramsPlain : List (String × PValue) :=
  [("recipient", PValue.vstr "keyX"), ("message", PValue.vstr "hello")]

/-! ### Claims -/

/-- C1: for every message string and attachment list of length N, the
plaintext container built by `_build_mail_to_encrypt` is a multipart with
exactly `1 + N` children: first a `text/plain` leaf declaring the UTF-8
charset and quoted-printable encoding and holding the (resolved) body, then
one base64-encoded attachment leaf per file in input order, each with a
`Content-Disposition: attachment` header carrying the original file name;
with zero attachments the container holds exactly the text leaf. -/
theorem c1_plaintext_container (message stdin : String) (files : List AttachFile) :
    build_mail_to_encrypt message stdin files =
      MimePart.multipart "mixed" [] []
        (MimePart.leaf "text" "plain" [("charset", "UTF-8")] Cte.quopri []
            (if reads_stdin message then stdin else message)
          :: files.map build_attachment) ∧
    (build_mail_to_encrypt message stdin files).children.length = 1 + files.length ∧
    (∀ f : AttachFile, build_attachment f =
      MimePart.leaf (f.guessedType.getD ("application", "octet-stream")).1
        (f.guessedType.getD ("application", "octet-stream")).2 []
        Cte.base64
        [⟨"Content-Disposition", "attachment", [("filename", f.name)]⟩]
        f.content) ∧
    build_mail_to_encrypt message stdin [] =
      MimePart.multipart "mixed" [] []
        [MimePart.leaf "text" "plain" [("charset", "UTF-8")] Cte.quopri []
          (if reads_stdin message then stdin else message)] := by
  refine ⟨rfl, ?_, fun f => rfl, rfl⟩
  simp [build_mail_to_encrypt, MimePart.children, Nat.add_comm]

/-- C6: when the resolved message equals the sentinel `--` (the default),
the body leaf of the assembled container is exactly the content of standard
input (in particular, when stdin is not itself the sentinel, the sentinel
does not appear as the body) and stdin is read; when the resolved message
differs from the sentinel, stdin is not read and the resolved string is the
body. -/
theorem c6_stdin_sentinel (message stdin : String) (files : List AttachFile) :
    (message = "--" →
      bodyOf (build_mail_to_encrypt message stdin files) = some stdin ∧
      reads_stdin message = true ∧
      (stdin ≠ "--" →
        bodyOf (build_mail_to_encrypt message stdin files) ≠ some "--")) ∧
    (message ≠ "--" →
      bodyOf (build_mail_to_encrypt message stdin files) = some message ∧
      reads_stdin message = false) := by
  constructor
  · intro hm
    subst hm
    refine ⟨rfl, rfl, ?_⟩
    intro hs hcontra
    simp only [build_mail_to_encrypt, bodyOf, MimePart.children, MimePart.payloadOf,
      reads_stdin] at hcontra
    exact hs (by simpa using hcontra)
  · intro hm
    have hrs : reads_stdin message = false := by
      simp [reads_stdin, hm]
    refine ⟨?_, hrs⟩
    simp [build_mail_to_encrypt, bodyOf, MimePart.children, MimePart.payloadOf, hrs]

/-- C6 witness: concrete instantiation of both branches. -/
theorem c6_stdin_sentinel_witness :
    bodyOf (build_mail_to_encrypt "--" "from stdin" []) = some "from stdin" ∧
    bodyOf (build_mail_to_encrypt "hello" "from stdin" []) = some "hello" :=
  ⟨((c6_stdin_sentinel "--" "from stdin" []).1 rfl).1,
   ((c6_stdin_sentinel "hello" "from stdin" []).2 (by decide)).1⟩

/-- C2: the node passed to the encrypt operation is a `multipart/signed`
container (protocol `application/pgp-signature`) with exactly two children
in fixed order — the step-1 plaintext container unchanged, then an
`application/pgp-signature` leaf named `signature.asc` holding the
detached-signature bytes with the no-transformation encoding — if and only
if a signer key id is configured (for the signed direction, provided the
hash id maps); with no signer configured the step-1 container is passed
unwrapped. -/
theorem c2_signed_wrapping (env : Env) (in_params : List (String × PValue)) :
    ((pget (_DEFAULT_PARAMS ++ in_params) "signer").truthy = false →
      node_to_encrypt env (_DEFAULT_PARAMS ++ in_params) =
        Except.ok (step1_node env (_DEFAULT_PARAMS ++ in_params))) ∧
    ((pget (_DEFAULT_PARAMS ++ in_params) "signer").truthy = true →
      ∀ name, hash_mapping env.signRes.hash_algo = some name →
        node_to_encrypt env (_DEFAULT_PARAMS ++ in_params) =
          Except.ok (MimePart.multipart "signed"
            [("micalg", "pgp-" ++ name), ("protocol", "application/pgp-signature")] []
            [step1_node env (_DEFAULT_PARAMS ++ in_params),
             MimePart.leaf "application" "pgp-signature" [("name", "signature.asc")]
               Cte.noop [] env.signRes.data])) := by
  constructor
  · intro h
    simp [node_to_encrypt, h]
  · intro h name hm
    simp [node_to_encrypt, h, hm]

/-- C2 witness: with a configured signer and hash id `8`, the node handed
to encryption is the signed wrapper. -/
theorem c2_signed_wrapping_witness :
    (pget (_DEFAULT_PARAMS ++ paramsSigned) "signer").truthy = true ∧
    hash_mapping "8" = some "sha256" ∧
    node_to_encrypt sampleEnvOk (_DEFAULT_PARAMS ++ paramsSigned) =
      Except.ok (MimePart.multipart "signed"
        [("micalg", "pgp-sha256"), ("protocol", "application/pgp-signature")] []
        [step1_node sampleEnvOk (_DEFAULT_PARAMS ++ paramsSigned),
         MimePart.leaf "application" "pgp-signature" [("name", "signature.asc")]
           Cte.noop [] "SIGDATA"]) :=
  ⟨rfl, rfl, (c2_signed_wrapping sampleEnvOk paramsSigned).2 rfl "sha256" rfl⟩

/-- C3: on encryption success `encrypt_mail` returns the
`multipart/encrypted` container with protocol `application/pgp-encrypted`
and exactly two children in fixed order — the `application/pgp-encrypted`
control leaf whose content is the literal string `Version: 1` with
7-or-8-bit encoding, then the `application/octet-stream` leaf named
`encrypted.asc` holding the ciphertext with the same encoding — and
carries the resolved subject as its top-level `Subject` header, defaulting
to `No subject` when the caller sets none. -/
theorem c3_encrypted_container (env : Env) (in_params : List (String × PValue))
    (node : MimePart)
    (hnode : node_to_encrypt env (_DEFAULT_PARAMS ++ in_params) = Except.ok node)
    (hok : env.encryptRes.ok = true) :
    encrypt_mail env in_params = Except.ok (MimePart.multipart "encrypted"
      [("protocol", "application/pgp-encrypted")]
      [⟨"Subject", (pget (_DEFAULT_PARAMS ++ in_params) "subject").getStr "", []⟩]
      [MimePart.leaf "application" "pgp-encrypted" [] Cte.sevenOrEightBit []
         "Version: 1",
       MimePart.leaf "application" "octet-stream" [("name", "encrypted.asc")]
         Cte.sevenOrEightBit [] env.encryptRes.data]) ∧
    (dlookup in_params "subject" = none →
      (pget (_DEFAULT_PARAMS ++ in_params) "subject").getStr "" = "No subject") := by
  constructor
  · simp [encrypt_mail, hnode, hok]
  · intro hs
    have hd : dlookup _DEFAULT_PARAMS "subject" = some (PValue.vstr "No subject") := rfl
    rw [pget, dlookup_append, hs, ofirst_none, hd]
    rfl

/-- C3 witness: the spec's end-to-end example — recipient `keyX`, message
`hello`, no attachments, trust on, no signer — yields the
`multipart/encrypted` container with subject `No subject`, the `Version: 1`
control leaf, the ciphertext leaf named `encrypted.asc`, and no signature
wrapper. -/
theorem c3_encrypted_container_witness :
    sampleEnvOk.encryptRes.ok = true ∧
    dlookup paramsE2E "subject" = none ∧
    encrypt_mail sampleEnvOk paramsE2E = Except.ok (MimePart.multipart "encrypted"
      [("protocol", "application/pgp-encrypted")]
      [⟨"Subject", "No subject", []⟩]
      [MimePart.leaf "application" "pgp-encrypted" [] Cte.sevenOrEightBit []
         "Version: 1",
       MimePart.leaf "application" "octet-stream" [("name", "encrypted.asc")]
         Cte.sevenOrEightBit [] "CIPHER"]) :=
  ⟨rfl, rfl,
   (c3_encrypted_container sampleEnvOk paramsE2E
     (step1_node sampleEnvOk (_DEFAULT_PARAMS ++ paramsE2E)) rfl rfl).1⟩

/-- C4: for every hash id returned by the sign operation, if it is one of
the seven tabulated identifiers the signed node's `micalg` parameter is
`pgp-` followed by the mapped name, and if it lies outside the table the
assembly fails with a fatal `KeyError` — never a default or fallback
micalg. -/
theorem c4_micalg (env : Env) (in_params : List (String × PValue))
    (hsig : (pget (_DEFAULT_PARAMS ++ in_params) "signer").truthy = true) :
    (∀ name, hash_mapping env.signRes.hash_algo = some name →
      (env.signRes.hash_algo, name) ∈ hash_table ∧
      ∀ m, node_to_encrypt env (_DEFAULT_PARAMS ++ in_params) = Except.ok m →
        m.ctParamsOf =
          [("micalg", "pgp-" ++ name), ("protocol", "application/pgp-signature")]) ∧
    (hash_mapping env.signRes.hash_algo = none →
      env.signRes.hash_algo ∉ hash_table.map Prod.fst ∧
      node_to_encrypt env (_DEFAULT_PARAMS ++ in_params) =
        Except.error (MailError.keyError env.signRes.hash_algo)) := by
  constructor
  · intro name hm
    refine ⟨hash_mapping_mem _ _ hm, ?_⟩
    intro m hmnode
    rw [node_to_encrypt] at hmnode
    simp only [hsig, if_true, hm] at hmnode
    injection hmnode with h2
    subst h2
    rfl
  · intro hm
    constructor
    · have ht : hash_table.map Prod.fst = ["1", "2", "3", "8", "9", "10", "11"] := rfl
      rw [ht]
      exact hash_mapping_none_not_mem _ hm
    · rw [node_to_encrypt]
      simp only [hsig, if_true, hm]

/-- C4 witness: hash id `8` gives `micalg=pgp-sha256`; the unmapped hash id
`4` aborts with a `KeyError`. -/
theorem c4_micalg_witness :
    (pget (_DEFAULT_PARAMS ++ paramsSigned) "signer").truthy = true ∧
    ("8", "sha256") ∈ hash_table ∧
    hash_mapping "4" = none ∧
    node_to_encrypt sampleEnvBadHash (_DEFAULT_PARAMS ++ paramsSigned) =
      Except.error (MailError.keyError "4") :=
  ⟨rfl, ((c4_micalg sampleEnvOk paramsSigned rfl).1 "sha256" rfl).1,
   rfl, ((c4_micalg sampleEnvBadHash paramsSigned rfl).2 rfl).2⟩

/-- C7: whenever the encrypt operation is reached and reports failure,
`encrypt_mail` aborts with the operation's diagnostic status printed to the
error stream and exit status 2 — distinct from success (0) and the
unreadable-passphrase-file status (3) — and returns no message. -/
theorem c7_encrypt_failure (env : Env) (in_params : List (String × PValue))
    (node : MimePart)
    (hnode : node_to_encrypt env (_DEFAULT_PARAMS ++ in_params) = Except.ok node)
    (hfail : env.encryptRes.ok = false) :
    encrypt_mail env in_params =
      Except.error (MailError.exitWith 2 env.encryptRes.status) ∧
    (2 : Nat) ≠ 0 ∧ (2 : Nat) ≠ 3 := by
  refine ⟨?_, by decide, by decide⟩
  simp [encrypt_mail, hnode, hfail]

/-- C7 witness: a failing gateway response makes `encrypt_mail` exit with
status 2 and the diagnostic. -/
theorem c7_encrypt_failure_witness :
    sampleEnvFail.encryptRes.ok = false ∧
    encrypt_mail sampleEnvFail [] =
      Except.error (MailError.exitWith 2 "BAD PASSPHRASE") :=
  ⟨rfl, (c7_encrypt_failure sampleEnvFail []
    (step1_node sampleEnvFail (_DEFAULT_PARAMS ++ [])) rfl rfl).1⟩

/-- C5: merge precedence over the dict pipeline of `_encrypt_mail` and
`encrypt_mail` — for every key, a CLI-contributed binding wins; with the
CLI binding absent a file-config binding wins; with both absent the
built-in default stands.  The trailing equalities show that the CLI dict
binds a key exactly when the corresponding option was explicitly passed
(its `optparse` value is not `None`), so an unpassed flag never overrides a
file-config value. -/
theorem c5_merge_precedence (cenv : CliEnv) (o : Options) (sp : Option String)
    (k : String) :
    (∀ v, dlookup (cli_config o sp) k = some v →
      dlookup (merged_params cenv o sp) k = some v) ∧
    (dlookup (cli_config o sp) k = none →
      ∀ v, dlookup (file_config cenv o) k = some v →
        dlookup (merged_params cenv o sp) k = some v) ∧
    (dlookup (cli_config o sp) k = none →
      dlookup (file_config cenv o) k = none →
        dlookup (merged_params cenv o sp) k = dlookup _DEFAULT_PARAMS k) ∧
    dlookup (cli_config o sp) "recipient" = o.recipient.map PValue.vstr ∧
    dlookup (cli_config o sp) "subject" = o.subject.map PValue.vstr ∧
    dlookup (cli_config o sp) "message" = o.message.map PValue.vstr ∧
    dlookup (cli_config o sp) "attachments" = o.files.map PValue.vlist ∧
    dlookup (cli_config o sp) "gpgenv" = o.gpgenv.map PValue.vstr ∧
    dlookup (cli_config o sp) "trust" = o.trust.map PValue.vbool ∧
    dlookup (cli_config o sp) "signer" = o.signer.map PValue.vstr ∧
    dlookup (cli_config o sp) "sign_password" = sp.map PValue.vstr := by
  refine ⟨?_, ?_, ?_, ?_, ?_, ?_, ?_, ?_, ?_, ?_, ?_⟩
  · intro v hv
    rw [merged_params, dlookup_append, dlookup_append, hv]
    rfl
  · intro hc v hv
    rw [merged_params, dlookup_append, dlookup_append, hc, hv]
    rfl
  · intro hc hf
    rw [merged_params, dlookup_append, dlookup_append, hc, hf]
    rfl
  all_goals simp [cli_config, dlookup_append, dlookup_centry, ofirst_none_right]

/-- C5 witness: a CLI-supplied recipient wins; a file-config subject stands
when the CLI did not pass one; an unset key falls back to the default. -/
theorem c5_merge_precedence_witness :
    dlookup (cli_config oCfgOnly none) "recipient" = some (PValue.vstr "keyX") ∧
    dlookup (merged_params cenvFile oCfgOnly none) "recipient" =
      some (PValue.vstr "keyX") ∧
    dlookup (cli_config oCfgOnly none) "subject" = none ∧
    dlookup (file_config cenvFile oCfgOnly) "subject" =
      some (PValue.vstr "From file") ∧
    dlookup (merged_params cenvFile oCfgOnly none) "subject" =
      some (PValue.vstr "From file") ∧
    dlookup (cli_config oCfgOnly none) "gpgenv" = none ∧
    dlookup (file_config cenvFile oCfgOnly) "gpgenv" = none ∧
    dlookup (merged_params cenvFile oCfgOnly none) "gpgenv" =
      dlookup _DEFAULT_PARAMS "gpgenv" :=
  ⟨rfl,
   (c5_merge_precedence cenvFile oCfgOnly none "recipient").1 _ rfl,
   rfl, rfl,
   (c5_merge_precedence cenvFile oCfgOnly none "subject").2.1 rfl _ rfl,
   rfl, rfl,
   (c5_merge_precedence cenvFile oCfgOnly none "gpgenv").2.2.1 rfl rfl⟩

/-- C8: a designated (truthy) passphrase-file path wins over any explicit
passphrase value: when the file exists, the resolved passphrase is its
first line with trailing newlines stripped; when it does not exist, the
program reports the unreadable file and exits with status 3, distinct from
the other exit statuses (0 success, 2 encryption failure). -/
theorem c8_passfile (cenv : CliEnv) (o : Options) (pf : String)
    (hpf : o.pass_file = some pf) (hne : pf ≠ "") :
    (cenv.passFileIsFile pf = true →
      resolve_sign_password cenv o =
        Except.ok (some (rstripNL (cenv.passFileFirstLine pf)))) ∧
    (cenv.passFileIsFile pf = false →
      resolve_sign_password cenv o = Except.error (MailError.exitWith 3
        ("Can\x27t read the \x27" ++ pf ++ "\x27 file."))) ∧
    (∀ spv, resolve_sign_password cenv { o with sign_password := spv } =
      resolve_sign_password cenv o) ∧
    ((3 : Nat) ≠ 0 ∧ (3 : Nat) ≠ 2) := by
  have ht : optTruthy o.pass_file = true := by
    rw [hpf]
    simp [optTruthy, hne]
  have hg : o.pass_file.getD "" = pf := by
    rw [hpf]
    rfl
  refine ⟨?_, ?_, ?_, by decide, by decide⟩
  · intro hex
    simp [resolve_sign_password, ht, hg, hex]
  · intro hex
    simp [resolve_sign_password, ht, hg, hex]
  · intro spv
    simp [resolve_sign_password, ht, hg]

/-- C8 witness: an existing passphrase file resolves to its first line
without the newline even though `--password` was also given; a missing one
exits with status 3. -/
theorem c8_passfile_witness :
    resolve_sign_password cenvPassOk oPass = Except.ok (some "secret") ∧
    resolve_sign_password cenvPassMissing oPass =
      Except.error (MailError.exitWith 3 "Can\x27t read the \x27pass.txt\x27 file.") := by
  constructor
  · have h := (c8_passfile cenvPassOk oPass "pass.txt" rfl (by decide)).1 rfl
    rw [h]
    rfl
  · have h := (c8_passfile cenvPassMissing oPass "pass.txt" rfl (by decide)).2.1 rfl
    rw [h]
    rfl

/-- C9 counterexample: with no signer configured but a designated
passphrase-file path whose file is missing, `_encrypt_mail` is fatal with
exit status 3 — the claimed lazy resolution (no fatal error when signing is
not requested) fails on the code, which resolves the passphrase eagerly at
lines 164-175 before ever consulting the signer option. -/
theorem c9_counterexample :
    oNoSign.signer = none ∧
    optTruthy oNoSign.pass_file = true ∧
    cenvPassMissing.passFileIsFile "missing.txt" = false ∧
    _encrypt_mail cenvPassMissing sampleEnvOk oNoSign =
      Except.error (MailError.exitWith 3 "Can\x27t read the \x27missing.txt\x27 file.") :=
  ⟨rfl, rfl, rfl, rfl⟩

/-- C9 (amended): passphrase resolution is eager — whenever a truthy
passphrase-file path is designated and the file does not exist,
`_encrypt_mail` reports the unreadable file and exits with status 3, with
no regard to whether signing is configured. -/
theorem c9_eager_passfile (cenv : CliEnv) (env : Env) (o : Options) (pf : String)
    (hpf : o.pass_file = some pf) (hne : pf ≠ "")
    (hmiss : cenv.passFileIsFile pf = false) :
    _encrypt_mail cenv env o = Except.error (MailError.exitWith 3
      ("Can\x27t read the \x27" ++ pf ++ "\x27 file.")) := by
  have ht : optTruthy o.pass_file = true := by
    rw [hpf]
    simp [optTruthy, hne]
  have hg : o.pass_file.getD "" = pf := by
    rw [hpf]
    rfl
  simp [_encrypt_mail, resolve_sign_password, ht, hg, hmiss]

/-- C9 (amended) witness: the eager fatal exit at a concrete input with no
signer configured. -/
theorem c9_eager_passfile_witness :
    oNoSign.signer = none ∧
    _encrypt_mail cenvPassMissing sampleEnvOk oNoSign =
      Except.error (MailError.exitWith 3 "Can\x27t read the \x27missing.txt\x27 file.") :=
  ⟨rfl, c9_eager_passfile cenvPassMissing sampleEnvOk oNoSign "missing.txt" rfl
    (by decide) rfl⟩

/-- C10: caller configurations that agree on the eight recognized parameter
keys but differ in extra, unrecognized keys (for example the `smtp_*`
entries a config file supplies for sending) are accepted without error and
produce the same assembly outcome. -/
theorem c10_extra_keys_ignored (env : Env) (p q : List (String × PValue))
    (hagree : ∀ k ∈ KNOWN_KEYS, dlookup p k = dlookup q k) :
    encrypt_mail env p = encrypt_mail env q := by
  have hp : ∀ k, dlookup p k = dlookup q k →
      pget (_DEFAULT_PARAMS ++ p) k = pget (_DEFAULT_PARAMS ++ q) k := by
    intro k hk
    rw [pget, pget, dlookup_append, dlookup_append, hk]
  have hmsg := hp "message" (hagree "message" (by simp [KNOWN_KEYS]))
  have hatt := hp "attachments" (hagree "attachments" (by simp [KNOWN_KEYS]))
  have hsig := hp "signer" (hagree "signer" (by simp [KNOWN_KEYS]))
  have hsub := hp "subject" (hagree "subject" (by simp [KNOWN_KEYS]))
  simp only [encrypt_mail, node_to_encrypt, step1_node, hmsg, hatt, hsig, hsub]

/-- C10 witness: adding `smtp_server`/`smtp_port` entries changes nothing
in the assembled message. -/
theorem c10_extra_keys_ignored_witness :
    (∀ k ∈ KNOWN_KEYS, dlookup paramsExtra k = dlookup paramsPlain k) ∧
    encrypt_mail sampleEnvOk paramsExtra = encrypt_mail sampleEnvOk paramsPlain :=
  ⟨by decide, c10_extra_keys_ignored sampleEnvOk paramsExtra paramsPlain (by decide)⟩

end GenGPGMail
